import Mathlib

set_option maxHeartbeats 1000000

/-!
Verification of the buffer core of `bevy_impulse` (`src/buffer.rs`).

The embedding below translates the buffer storage engine, its retention
policy, the capability-key lifecycle model, the access guards with their
deferred change-notification protocol, and the world-level fallback access
into Lean.  Code that lives in `src/buffer.rs` is translated directly from
the source.  The submodules `buffer_storage.rs`, `buffer_access_lifecycle.rs`
and `buffer_gate.rs` are part of the repository but are not available, so
the definitions that come from them are modelled from the specification and
are marked as such in their doc comments.

The `bevy_ecs` substrate (entities, components, `Commands`) is an external
collaborator: entities are natural numbers, component lookup is a partial
map held by a `World` value, and the deferred command queue is an explicit
list of pending `NotifyBufferUpdate` effects.
-/

/-- Entity identifiers of the `bevy_ecs` substrate, modelled as naturals. -/
abbrev Entity := Nat

/-- Retention policy of a buffer, from `enum RetentionPolicy` in
`src/buffer.rs`: `KeepLast(usize)`, `KeepFirst(usize)`, `KeepAll`.
The Rust `Default` impl is `KeepLast(1)`. -/
inductive RetentionPolicy where
  | KeepLast (n : Nat)
  | KeepFirst (n : Nat)
  | KeepAll
deriving DecidableEq

instance : Inhabited RetentionPolicy := ⟨.KeepLast 1⟩

/-- Settings of a buffer, from `struct BufferSettings` in `src/buffer.rs`:
a single retention policy. -/
structure BufferSettings where
  retention : RetentionPolicy
deriving DecidableEq

/-- Constructor `BufferSettings::keep_last(n)` from `src/buffer.rs`. -/
def BufferSettings.keep_last (n : Nat) : BufferSettings := ⟨.KeepLast n⟩

/-- Constructor `BufferSettings::keep_first(n)` from `src/buffer.rs`. -/
def BufferSettings.keep_first (n : Nat) : BufferSettings := ⟨.KeepFirst n⟩

/-- Constructor `BufferSettings::keep_all()` from `src/buffer.rs`. -/
def BufferSettings.keep_all : BufferSettings := ⟨.KeepAll⟩

/-- Modelled from the spec: `BufferStorage<T>` (`buffer_storage.rs` is not
under `src/`).  Per the spec, a mapping from session id to an ordered
sequence of `T`, index 0 being the oldest element and the highest index the
newest, together with the buffer's settings. -/
structure BufferStorage (T : Type) where
  settings : BufferSettings
  queues : Entity → List T

variable {T : Type}

/-- Queue of one session inside a storage, oldest first. -/
def BufferStorage.getQueue (s : BufferStorage T) (session : Entity) : List T :=
  s.queues session

/-- Replace the queue of one session inside a storage. -/
def BufferStorage.setQueue (s : BufferStorage T) (session : Entity) (q : List T) :
    BufferStorage T :=
  { s with queues := fun j => if j = session then q else s.queues j }

/-- Modelled from the spec: `BufferStorage::count(session)`. -/
def BufferStorage.count (s : BufferStorage T) (session : Entity) : Nat :=
  (s.getQueue session).length

/-- Modelled from the spec: `oldest` borrows index 0. -/
def BufferStorage.oldest (s : BufferStorage T) (session : Entity) : Option T :=
  (s.getQueue session).head?

/-- Modelled from the spec: `newest` borrows the highest index. -/
def BufferStorage.newest (s : BufferStorage T) (session : Entity) : Option T :=
  (s.getQueue session).getLast?

/-- Modelled from the spec: `get(session, index)`; out of range is `None`. -/
def BufferStorage.get (s : BufferStorage T) (session : Entity) (index : Nat) : Option T :=
  (s.getQueue session).get? index

/-- Modelled from the spec: `iter` yields the session's contents oldest to
newest. -/
def BufferStorage.iter (s : BufferStorage T) (session : Entity) : List T :=
  s.getQueue session

/-- Modelled from the spec: `push(session, value)`.  Under `KeepAll` the
value is always appended and `None` is returned.  Under `KeepLast(n)` the
value is appended, then if the length exceeds `n` the oldest element is
removed and returned.  Under `KeepFirst(n)` the value is appended and `None`
returned while the length is below `n`; at capacity the storage is left
unchanged and the incoming value is returned. -/
def BufferStorage.push (s : BufferStorage T) (session : Entity) (value : T) :
    BufferStorage T × Option T :=
  match s.settings.retention with
  | .KeepAll => (s.setQueue session (s.getQueue session ++ [value]), none)
  | .KeepLast n =>
      let q := s.getQueue session ++ [value]
      if n < q.length then (s.setQueue session q.tail, q.head?)
      else (s.setQueue session q, none)
  | .KeepFirst n =>
      if s.count session < n then
        (s.setQueue session (s.getQueue session ++ [value]), none)
      else (s, some value)

/-- Modelled from the spec: `push_as_oldest(session, value)` inserts as the
oldest element under the same capacity ceiling.  The spec leaves the exact
eviction end open (its §9 open question); this model evicts from the newest
end under `KeepLast`.  Only the guard's `modified` flag depends on this
operation in the claims below. -/
def BufferStorage.push_as_oldest (s : BufferStorage T) (session : Entity) (value : T) :
    BufferStorage T × Option T :=
  match s.settings.retention with
  | .KeepAll => (s.setQueue session (value :: s.getQueue session), none)
  | .KeepLast n =>
      let q := value :: s.getQueue session
      if n < q.length then (s.setQueue session q.dropLast, q.getLast?)
      else (s.setQueue session q, none)
  | .KeepFirst n =>
      if s.count session < n then
        (s.setQueue session (value :: s.getQueue session), none)
      else (s, some value)

/-- Modelled from the spec: `pull(session)` removes and returns the oldest
element; `None` on an empty session. -/
def BufferStorage.pull (s : BufferStorage T) (session : Entity) :
    BufferStorage T × Option T :=
  match s.getQueue session with
  | [] => (s, none)
  | v :: rest => (s.setQueue session rest, some v)

/-- Modelled from the spec: `pull_newest(session)` removes and returns the
newest element; `None` on an empty session. -/
def BufferStorage.pull_newest (s : BufferStorage T) (session : Entity) :
    BufferStorage T × Option T :=
  match (s.getQueue session).getLast? with
  | none => (s, none)
  | some v => (s.setQueue session (s.getQueue session).dropLast, some v)

/-- Modelled from the spec: `get_mut(session, index)` hands out a mutable
borrow of the indexed element; out of range is `None`.  The borrow itself is
modelled as a read — writes through it are outside the claims. -/
def BufferStorage.get_mut (s : BufferStorage T) (session : Entity) (index : Nat) : Option T :=
  (s.getQueue session).get? index

/-- Modelled from the spec: `oldest_mut(session)`, a mutable borrow of the
oldest element. -/
def BufferStorage.oldest_mut (s : BufferStorage T) (session : Entity) : Option T :=
  (s.getQueue session).head?

/-- Modelled from the spec: `newest_mut(session)`, a mutable borrow of the
newest element. -/
def BufferStorage.newest_mut (s : BufferStorage T) (session : Entity) : Option T :=
  (s.getQueue session).getLast?

/-- Modelled from the spec: `newest_mut_or_else(session, f)`.  If the session
has a newest element it is borrowed; otherwise a value synthesized by `f`
(modelled as the value itself) is pushed and the resulting newest element is
borrowed, which can still be `None` when the effective capacity is zero. -/
def BufferStorage.newest_mut_or_else (s : BufferStorage T) (session : Entity) (v : T) :
    BufferStorage T × Option T :=
  match (s.getQueue session).getLast? with
  | some x => (s, some x)
  | none =>
      let r := s.push session v
      (r.1, (r.1.getQueue session).getLast?)

/-- Modelled from the spec: `iter_mut` iterates mutably over the session's
contents oldest to newest; modelled as yielding the contents. -/
def BufferStorage.iter_mut (s : BufferStorage T) (session : Entity) : List T :=
  s.getQueue session

/-- Modelled from the spec: `drain(session, range)` removes and returns, in
oldest-to-newest order, the elements of the half-open index range
`[lo, hi)`. -/
def BufferStorage.drain (s : BufferStorage T) (session : Entity) (lo hi : Nat) :
    BufferStorage T × List T :=
  let q := s.getQueue session
  (s.setQueue session (q.take lo ++ q.drop hi), (q.drop lo).take (hi - lo))

/-- Deferred buffer-updated effect, from `NotifyBufferUpdate::new(buffer,
session, accessor)` as enqueued by `impl Drop for BufferMut` in
`src/buffer.rs`.  The `accessor` field is the excluded accessor for
closed-loop suppression. -/
structure NotifyBufferUpdate where
  buffer : Entity
  session : Entity
  accessor : Option Entity
deriving DecidableEq

/-- Write guard over a buffer, from `struct BufferMut` in `src/buffer.rs`.
The `Mut<'a, BufferStorage<T>>` borrow is modelled by holding the storage
value, and the `Commands` handle is externalized: the release logic returns
the commands it would enqueue (see `BufferMut.dropCommands`). -/
structure BufferMut (T : Type) where
  storage : BufferStorage T
  buffer : Entity
  session : Entity
  accessor : Option Entity
  modified : Bool

/-- Constructor `BufferMut::new` from `src/buffer.rs`: records the key's
buffer, session and accessor, wraps the accessor in `Some`, and starts with
`modified = false`. -/
def BufferMut.new (storage : BufferStorage T) (buffer session accessor : Entity) :
    BufferMut T :=
  { storage := storage, buffer := buffer, session := session,
    accessor := some accessor, modified := false }

/-- Release logic of the guard, from `impl Drop for BufferMut` in
`src/buffer.rs`: if `modified` is set, enqueue exactly one
`NotifyBufferUpdate::new(self.buffer, self.session, self.accessor)`;
otherwise enqueue nothing. -/
def BufferMut.dropCommands (g : BufferMut T) : List NotifyBufferUpdate :=
  if g.modified then [⟨g.buffer, g.session, g.accessor⟩] else []

/-- Method `BufferMut::allow_closed_loops` from `src/buffer.rs`: clears the
accessor exclusion (`self.accessor = None`) and returns the guard. -/
def BufferMut.allow_closed_loops (g : BufferMut T) : BufferMut T :=
  { g with accessor := none }

/-- Method `BufferMut::pulse` from `src/buffer.rs`: sets `modified` and does
nothing else. -/
def BufferMut.pulse (g : BufferMut T) : BufferMut T :=
  { g with modified := true }

/-- Method `BufferMut::push` from `src/buffer.rs`: sets `modified` and
delegates to the storage. -/
def BufferMut.push (g : BufferMut T) (value : T) : BufferMut T × Option T :=
  let r := g.storage.push g.session value
  ({ g with storage := r.1, modified := true }, r.2)

/-- Method `BufferMut::push_as_oldest` from `src/buffer.rs`. -/
def BufferMut.push_as_oldest (g : BufferMut T) (value : T) : BufferMut T × Option T :=
  let r := g.storage.push_as_oldest g.session value
  ({ g with storage := r.1, modified := true }, r.2)

/-- Method `BufferMut::pull` from `src/buffer.rs`: sets `modified` and
removes the oldest item. -/
def BufferMut.pull (g : BufferMut T) : BufferMut T × Option T :=
  let r := g.storage.pull g.session
  ({ g with storage := r.1, modified := true }, r.2)

/-- Method `BufferMut::pull_newest` from `src/buffer.rs`. -/
def BufferMut.pull_newest (g : BufferMut T) : BufferMut T × Option T :=
  let r := g.storage.pull_newest g.session
  ({ g with storage := r.1, modified := true }, r.2)

/-- Method `BufferMut::get_mut` from `src/buffer.rs`: sets `modified`
unconditionally, then looks up the index. -/
def BufferMut.get_mut (g : BufferMut T) (index : Nat) : BufferMut T × Option T :=
  ({ g with modified := true }, g.storage.get_mut g.session index)

/-- Method `BufferMut::oldest_mut` from `src/buffer.rs`. -/
def BufferMut.oldest_mut (g : BufferMut T) : BufferMut T × Option T :=
  ({ g with modified := true }, g.storage.oldest_mut g.session)

/-- Method `BufferMut::newest_mut` from `src/buffer.rs`. -/
def BufferMut.newest_mut (g : BufferMut T) : BufferMut T × Option T :=
  ({ g with modified := true }, g.storage.newest_mut g.session)

/-- Method `BufferMut::newest_mut_or_else` from `src/buffer.rs`. -/
def BufferMut.newest_mut_or_else (g : BufferMut T) (v : T) : BufferMut T × Option T :=
  let r := g.storage.newest_mut_or_else g.session v
  ({ g with storage := r.1, modified := true }, r.2)

/-- Method `BufferMut::iter_mut` from `src/buffer.rs`: sets `modified` and
iterates mutably. -/
def BufferMut.iter_mut (g : BufferMut T) : BufferMut T × List T :=
  ({ g with modified := true }, g.storage.iter_mut g.session)

/-- Method `BufferMut::drain` from `src/buffer.rs`. -/
def BufferMut.drain (g : BufferMut T) (lo hi : Nat) : BufferMut T × List T :=
  let r := g.storage.drain g.session lo hi
  ({ g with storage := r.1, modified := true }, r.2)

/-- Method `BufferMut::len` from `src/buffer.rs` (read-only). -/
def BufferMut.len (g : BufferMut T) : Nat :=
  g.storage.count g.session

/-- Method `BufferMut::is_empty` from `src/buffer.rs` (read-only). -/
def BufferMut.is_empty (g : BufferMut T) : Bool :=
  g.len = 0

/-- One call made on a `BufferMut` guard during its lifetime.  The
constructors mirror the methods of `BufferMut` in `src/buffer.rs`:
mutating calls, `pulse`, `allow_closed_loops`, and the read-only calls. -/
inductive MutOp (T : Type) where
  | push (v : T)
  | pushAsOldest (v : T)
  | pull
  | pullNewest
  | getMut (i : Nat)
  | oldestMut
  | newestMut
  | newestMutOrElse (v : T)
  | iterMut
  | drain (lo hi : Nat)
  | pulse
  | allowClosedLoops
  | iter
  | oldest
  | newest
  | get (i : Nat)
  | len

/-- Apply one call to a guard, discarding the call's return value.  Read-only
calls (`&self` methods in the source) leave the guard unchanged. -/
def applyOp (g : BufferMut T) : MutOp T → BufferMut T
  | .push v => (g.push v).1
  | .pushAsOldest v => (g.push_as_oldest v).1
  | .pull => g.pull.1
  | .pullNewest => g.pull_newest.1
  | .getMut i => (g.get_mut i).1
  | .oldestMut => g.oldest_mut.1
  | .newestMut => g.newest_mut.1
  | .newestMutOrElse v => (g.newest_mut_or_else v).1
  | .iterMut => g.iter_mut.1
  | .drain lo hi => (g.drain lo hi).1
  | .pulse => g.pulse
  | .allowClosedLoops => g.allow_closed_loops
  | .iter => g
  | .oldest => g
  | .newest => g
  | .get _ => g
  | .len => g

/-- Apply a whole guard lifetime, a list of calls in order. -/
def applyOps (g : BufferMut T) (ops : List (MutOp T)) : BufferMut T :=
  ops.foldl applyOp g

/-- Whether a call sets the guard's `modified` flag in `src/buffer.rs`:
every mutating call and `pulse` do; `allow_closed_loops` and the read-only
calls do not. -/
def setsModified : MutOp T → Bool
  | .allowClosedLoops => false
  | .iter => false
  | .oldest => false
  | .newest => false
  | .get _ => false
  | .len => false
  | _ => true

/-- Whether a call is `allow_closed_loops`. -/
def isAllowClosedLoops : MutOp T → Bool
  | .allowClosedLoops => true
  | _ => false

/-- Modelled from the spec: the store of shared reference-counted lifecycle
handles (`BufferAccessLifecycle` in `buffer_access_lifecycle.rs`, not under
`src/`).  A handle is an allocation identifier; `counts` gives each handle's
strong reference count, `nextId` the next unallocated identifier.  Per the
spec, `is_in_use` of a handle is true iff it reports outstanding
references. -/
structure LifecycleStore where
  counts : Nat → Nat
  nextId : Nat

/-- Modelled from the spec: the reference count a handle reports. -/
def LifecycleStore.countOf (st : LifecycleStore) (id : Nat) : Nat :=
  st.counts id

/-- Modelled from the spec: a lifecycle handle is in use iff it has
outstanding references. -/
def LifecycleStore.isInUse (st : LifecycleStore) (id : Nat) : Bool :=
  0 < st.countOf id

/-- Increment a handle's reference count (an `Arc` clone). -/
def LifecycleStore.incr (st : LifecycleStore) (id : Nat) : LifecycleStore :=
  { st with counts := fun j => if j = id then st.counts id + 1 else st.counts j }

/-- Decrement a handle's reference count (an `Arc` drop). -/
def LifecycleStore.decr (st : LifecycleStore) (id : Nat) : LifecycleStore :=
  { st with counts := fun j => if j = id then st.counts id - 1 else st.counts j }

/-- Allocate a fresh handle with reference count 1 (an `Arc::new`). -/
def LifecycleStore.fresh (st : LifecycleStore) : LifecycleStore × Nat :=
  ({ counts := fun j => if j = st.nextId then 1 else st.counts j,
     nextId := st.nextId + 1 }, st.nextId)

/-- Identifying information of a buffer key, from `struct BufferKeyTag` in
`src/buffer.rs`: buffer id, session id, accessor id, and an optional shared
lifecycle handle (the `Option<Arc<BufferAccessLifecycle>>`, modelled as an
optional handle identifier into a `LifecycleStore`). -/
structure BufferKeyTag where
  buffer : Entity
  session : Entity
  accessor : Entity
  lifecycle : Option Nat
deriving DecidableEq

/-- Method `BufferKeyTag::is_in_use` from `src/buffer.rs`:
`self.lifecycle.as_ref().is_some_and(|l| l.is_in_use())`. -/
def BufferKeyTag.is_in_use (st : LifecycleStore) (t : BufferKeyTag) : Bool :=
  match t.lifecycle with
  | none => false
  | some id => st.isInUse id

/-- Plain `clone()` of a key tag: the derived `Clone` of `BufferKeyTag` in
`src/buffer.rs` clones the `Option<Arc<_>>`, which shares the same
allocation and bumps its strong count. -/
def cloneTag (st : LifecycleStore) (t : BufferKeyTag) : LifecycleStore × BufferKeyTag :=
  match t.lifecycle with
  | none => (st, t)
  | some id => (st.incr id, t)

/-- Method `BufferKeyTag::deep_clone` from `src/buffer.rs`: copies the tag
and replaces the lifecycle by
`self.lifecycle.as_ref().map(|l| Arc::new(l.as_ref().clone()))`, i.e. a
freshly allocated handle (or `None` when there was none). -/
def deepCloneTag (st : LifecycleStore) (t : BufferKeyTag) :
    LifecycleStore × BufferKeyTag :=
  match t.lifecycle with
  | none => (st, { t with lifecycle := none })
  | some _ =>
      let r := st.fresh
      (r.1, { t with lifecycle := some r.2 })

/-- Dropping a key releases its reference on the shared handle. -/
def dropTag (st : LifecycleStore) (t : BufferKeyTag) : LifecycleStore :=
  match t.lifecycle with
  | none => st
  | some id => st.decr id

/-- Typed buffer key, from `struct BufferKey<T>` in `src/buffer.rs`: a tag
plus a phantom type parameter. -/
structure BufferKey (T : Type) where
  tag : BufferKeyTag

/-- Method `BufferKey::buffer` from `src/buffer.rs`. -/
def BufferKey.buffer (k : BufferKey T) : Entity := k.tag.buffer

/-- Method `BufferKey::session` from `src/buffer.rs`. -/
def BufferKey.session (k : BufferKey T) : Entity := k.tag.session

/-- Type-erased buffer key, from `AnyBufferKey` (`any_buffer.rs`, not under
`src/`): modelled from the spec as the identity tag alone. -/
structure AnyBufferKey where
  tag : BufferKeyTag

/-- Gate state of a buffer, from the spec's §4.5: two values, default
`Open`. -/
inductive Gate where
  | Open
  | Closed
deriving DecidableEq

/-- Modelled from the spec: the `GateState` component (`buffer_gate.rs` is
not under `src/`), a per-session two-valued flag stored on the buffer
entity, default `Open`. -/
structure GateState where
  map : Entity → Gate

/-- One buffer entity of the substrate: its optional `BufferStorage<T>`
component and its optional `GateState` component. -/
structure WorldEntity (T : Type) where
  storage : Option (BufferStorage T)
  gate : Option GateState

/-- The `bevy_ecs` world, modelled as a partial map from entity ids to
buffer entities plus the deferred command queue into which
`NotifyBufferUpdate` effects are enqueued (spec §6: applied at
substrate-defined flush points). -/
structure World (T : Type) where
  entities : Entity → Option (WorldEntity T)
  pending : List NotifyBufferUpdate

/-- Lookup failure of the substrate's query path, from
`bevy_ecs::query::QueryEntityError`: the entity does not exist, or it does
not have the queried component. -/
inductive QueryEntityError where
  | noSuchEntity
  | queryDoesNotMatch
deriving DecidableEq

/-- Error type of the world-level fallback access, from
`enum BufferError` in `src/buffer.rs`. -/
inductive BufferError where
  | bufferMissing
deriving DecidableEq

/-- The substrate query `Query<&BufferStorage<T>>::get(entity)`: resolves an
entity to its storage component or fails with a `QueryEntityError`. -/
def storageQuery (w : World T) (e : Entity) :
    Except QueryEntityError (BufferStorage T) :=
  match w.entities e with
  | none => .error .noSuchEntity
  | some ent =>
      match ent.storage with
      | none => .error .queryDoesNotMatch
      | some st => .ok st

/-- The substrate query `Query<&GateState>::get(entity)`. -/
def gateQuery (w : World T) (e : Entity) : Except QueryEntityError GateState :=
  match w.entities e with
  | none => .error .noSuchEntity
  | some ent =>
      match ent.gate with
      | none => .error .queryDoesNotMatch
      | some gs => .ok gs

/-- Read guard over a buffer, from `struct BufferView` in `src/buffer.rs`. -/
structure BufferView (T : Type) where
  storage : BufferStorage T
  session : Entity

/-- Method `BufferView::newest` from `src/buffer.rs`. -/
def BufferView.newest (v : BufferView T) : Option T :=
  v.storage.newest v.session

/-- Method `BufferView::oldest` from `src/buffer.rs`. -/
def BufferView.oldest (v : BufferView T) : Option T :=
  v.storage.oldest v.session

/-- Method `BufferView::len` from `src/buffer.rs`. -/
def BufferView.len (v : BufferView T) : Nat :=
  v.storage.count v.session

/-- Read guard over a buffer gate, from `BufferGateView`
(`buffer_gate.rs`). -/
structure BufferGateView where
  gate : GateState
  session : Entity

/-- Write guard over a buffer gate, from `BufferGateMut`
(`buffer_gate.rs`); modelled from the spec with just the resolved state. -/
structure BufferGateMut where
  gate : GateState
  session : Entity

/-- Method `BufferAccess::get` from `src/buffer.rs`: resolve the key's
buffer through the query and wrap the storage with the key's session; the
substrate's `QueryEntityError` is propagated unmapped. -/
def BufferAccess.get (w : World T) (key : BufferKey T) :
    Except QueryEntityError (BufferView T) :=
  (storageQuery w key.tag.buffer).map fun st => ⟨st, key.tag.session⟩

/-- Method `BufferAccess::get_newest` from `src/buffer.rs`:
`self.get(key).ok().map(|view| view.newest()).flatten()`. -/
def BufferAccess.get_newest (w : World T) (key : BufferKey T) : Option T :=
  ((BufferAccess.get w key).toOption.map BufferView.newest).join

/-- Method `BufferAccessMut::get` from `src/buffer.rs` (same body as
`BufferAccess::get`). -/
def BufferAccessMut.get (w : World T) (key : BufferKey T) :
    Except QueryEntityError (BufferView T) :=
  (storageQuery w key.tag.buffer).map fun st => ⟨st, key.tag.session⟩

/-- Method `BufferAccessMut::get_newest` from `src/buffer.rs`. -/
def BufferAccessMut.get_newest (w : World T) (key : BufferKey T) : Option T :=
  ((BufferAccessMut.get w key).toOption.map BufferView.newest).join

/-- Method `BufferAccessMut::get_mut` from `src/buffer.rs`: resolve the
key's buffer through the mutable query and construct the guard via
`BufferMut::new(storage, key.buffer, key.session, key.tag.accessor, ..)`;
the substrate's `QueryEntityError` is propagated unmapped. -/
def BufferAccessMut.get_mut (w : World T) (key : BufferKey T) :
    Except QueryEntityError (BufferMut T) :=
  (storageQuery w key.tag.buffer).map fun st =>
    BufferMut.new st key.tag.buffer key.tag.session key.tag.accessor

/-- Method `BufferGateAccessMut::get_mut` (`buffer_gate.rs`): resolves a
type-erased key against the gate query, propagating `QueryEntityError`. -/
def BufferGateAccessMut.get_mut (w : World T) (key : AnyBufferKey) :
    Except QueryEntityError BufferGateMut :=
  (gateQuery w key.tag.buffer).map fun gs => ⟨gs, key.tag.session⟩

/-- Method `BufferWorldAccess::buffer_view` for `World` from
`src/buffer.rs`: `get_entity(..).ok_or(BufferMissing)` then
`get::<BufferStorage<T>>().ok_or(BufferMissing)`. -/
def World.buffer_view (w : World T) (key : BufferKey T) :
    Except BufferError (BufferView T) :=
  match w.entities key.tag.buffer with
  | none => .error .bufferMissing
  | some ent =>
      match ent.storage with
      | none => .error .bufferMissing
      | some st => .ok ⟨st, key.tag.session⟩

/-- Method `BufferWorldAccess::buffer_gate_view` for `World` from
`src/buffer.rs`: `get_entity(..).ok_or(BufferMissing)` then
`get::<GateState>().ok_or(BufferMissing)`. -/
def World.buffer_gate_view (w : World T) (key : AnyBufferKey) :
    Except BufferError BufferGateView :=
  match w.entities key.tag.buffer with
  | none => .error .bufferMissing
  | some ent =>
      match ent.gate with
      | none => .error .bufferMissing
      | some gs => .ok ⟨gs, key.tag.session⟩

/-- Replace the storage component of one entity in the world, modelling the
write-through of the `Mut<BufferStorage<T>>` borrow held by a guard. -/
def World.setStorage (w : World T) (e : Entity) (st : BufferStorage T) : World T :=
  { w with
    entities := fun j =>
      if j = e then (w.entities j).map fun ent => { ent with storage := some st }
      else w.entities j }

/-- Method `BufferWorldAccess::buffer_mut` for `World` from `src/buffer.rs`:
resolves the key through `BufferAccessMut::get_mut`, mapping its error to
`BufferError::BufferMissing`, and returns `Ok(f(buffer_mut))`.  The guard is
dropped when `f` returns; its release commands go into the substrate's
deferred queue and the storage borrow writes through — both substrate
effects are modelled explicitly here (spec §4.6 and §6). -/
def World.buffer_mut (w : World T) (key : BufferKey T)
    (f : BufferMut T → BufferMut T × U) : Except BufferError (World T × U) :=
  match BufferAccessMut.get_mut w key with
  | .error _ => .error .bufferMissing
  | .ok g =>
      let r := f g
      .ok ({ w.setStorage key.tag.buffer r.1.storage with
              pending := w.pending ++ r.1.dropCommands }, r.2)

/-- Method `BufferWorldAccess::buffer_gate_mut` for `World` from
`src/buffer.rs`: resolves the key through `BufferGateAccessMut::get_mut`,
mapping its error to `BufferError::BufferMissing`, and returns
`Ok(f(buffer_mut))`. -/
def World.buffer_gate_mut (w : World T) (key : AnyBufferKey)
    (f : BufferGateMut → U) : Except BufferError U :=
  match BufferGateAccessMut.get_mut w key with
  | .error _ => .error .bufferMissing
  | .ok g => .ok (f g)

/-- Common observation of the error produced by an access boundary, to
compare the query-scoped and world-level entry points. -/
inductive ErrKind where
  | bufferMissing
  | noSuchEntity
  | queryDoesNotMatch
deriving DecidableEq

/-- Observed error kind of a query-scoped entry point. -/
def queryErrKind : Except QueryEntityError α → Option ErrKind
  | .error .noSuchEntity => some .noSuchEntity
  | .error .queryDoesNotMatch => some .queryDoesNotMatch
  | .ok _ => none

/-- Observed error kind of a world-level entry point. -/
def bufferErrKind : Except BufferError α → Option ErrKind
  | .error .bufferMissing => some .bufferMissing
  | .ok _ => none

theorem applyOp_buffer (g : BufferMut T) (op : MutOp T) :
    (applyOp g op).buffer = g.buffer := by
  cases op <;> rfl

theorem applyOp_session (g : BufferMut T) (op : MutOp T) :
    (applyOp g op).session = g.session := by
  cases op <;> rfl

theorem applyOp_modified (g : BufferMut T) (op : MutOp T) :
    (applyOp g op).modified = (g.modified || setsModified op) := by
  cases op <;> simp [applyOp, setsModified, BufferMut.push, BufferMut.push_as_oldest,
    BufferMut.pull, BufferMut.pull_newest, BufferMut.get_mut, BufferMut.oldest_mut,
    BufferMut.newest_mut, BufferMut.newest_mut_or_else, BufferMut.iter_mut,
    BufferMut.drain, BufferMut.pulse, BufferMut.allow_closed_loops]

theorem applyOp_accessor (g : BufferMut T) (op : MutOp T) :
    (applyOp g op).accessor = (if isAllowClosedLoops op then none else g.accessor) := by
  cases op <;> rfl

theorem applyOps_buffer (ops : List (MutOp T)) (g : BufferMut T) :
    (applyOps g ops).buffer = g.buffer := by
  induction ops generalizing g with
  | nil => rfl
  | cons op ops ih =>
      rw [show applyOps g (op :: ops) = applyOps (applyOp g op) ops from rfl, ih,
        applyOp_buffer]

theorem applyOps_session (ops : List (MutOp T)) (g : BufferMut T) :
    (applyOps g ops).session = g.session := by
  induction ops generalizing g with
  | nil => rfl
  | cons op ops ih =>
      rw [show applyOps g (op :: ops) = applyOps (applyOp g op) ops from rfl, ih,
        applyOp_session]

theorem applyOps_modified (ops : List (MutOp T)) (g : BufferMut T) :
    (applyOps g ops).modified = (g.modified || ops.any setsModified) := by
  induction ops generalizing g with
  | nil => simp [applyOps]
  | cons op ops ih =>
      rw [show applyOps g (op :: ops) = applyOps (applyOp g op) ops from rfl, ih,
        applyOp_modified, List.any_cons, Bool.or_assoc]

theorem applyOps_accessor (ops : List (MutOp T)) (g : BufferMut T) :
    (applyOps g ops).accessor
      = (if ops.any isAllowClosedLoops then none else g.accessor) := by
  induction ops generalizing g with
  | nil => simp [applyOps]
  | cons op ops ih =>
      rw [show applyOps g (op :: ops) = applyOps (applyOp g op) ops from rfl, ih,
        applyOp_accessor, List.any_cons]
      cases h1 : isAllowClosedLoops op <;>
        cases h2 : ops.any isAllowClosedLoops <;> simp

/-- C1: for every `BufferMut` guard, on release exactly one deferred
`NotifyBufferUpdate` event for the guard's `(buffer, session)` is enqueued
if the guard's `modified` flag is true, and none if it is false; `modified`
is exactly "some mutating call or `pulse` happened during the lifetime", so
this holds regardless of how many mutating calls were made, and a guard
with zero mutating calls and no `pulse()` enqueues nothing. -/
theorem guard_release_exactly_one_notification (T : Type) (st : BufferStorage T)
    (buf sess acc : Entity) (ops : List (MutOp T)) :
    (applyOps (BufferMut.new st buf sess acc) ops).modified = ops.any setsModified
    ∧ BufferMut.dropCommands (applyOps (BufferMut.new st buf sess acc) ops)
        = (if ops.any setsModified then
            [⟨buf, sess, (applyOps (BufferMut.new st buf sess acc) ops).accessor⟩]
           else [])
    ∧ (BufferMut.dropCommands (applyOps (BufferMut.new st buf sess acc) ops)).length
        = (if ops.any setsModified then 1 else 0) := by
  have hm : (applyOps (BufferMut.new st buf sess acc) ops).modified
      = ops.any setsModified := by
    rw [applyOps_modified]; simp [BufferMut.new]
  refine ⟨hm, ?_, ?_⟩
  · rw [BufferMut.dropCommands, hm, applyOps_buffer, applyOps_session]
    rfl
  · rw [BufferMut.dropCommands, hm]
    cases ops.any setsModified <;> simp

/-- C2: the notification a guard enqueues on release carries an excluded
accessor equal to the creating key's accessor, unless `allow_closed_loops()`
was called during the guard's lifetime, in which case it carries none. -/
theorem guard_release_excluded_accessor (T : Type) (st : BufferStorage T)
    (buf sess acc : Entity) (ops : List (MutOp T)) :
    (applyOps (BufferMut.new st buf sess acc) ops).accessor
        = (if ops.any isAllowClosedLoops then none else some acc)
    ∧ BufferMut.dropCommands (applyOps (BufferMut.new st buf sess acc) ops)
        = (if (applyOps (BufferMut.new st buf sess acc) ops).modified then
            [⟨buf, sess, if ops.any isAllowClosedLoops then none else some acc⟩]
           else []) := by
  have ha : (applyOps (BufferMut.new st buf sess acc) ops).accessor
      = (if ops.any isAllowClosedLoops then none else some acc) := by
    rw [applyOps_accessor]; rfl
  refine ⟨ha, ?_⟩
  rw [BufferMut.dropCommands, ha, applyOps_buffer, applyOps_session]
  rfl

/-- C6: `pulse()` sets the guard's `modified` flag and leaves the stored
contents entirely unchanged: the storage is the same value, so every
session's queue and count are unchanged. -/
theorem pulse_sets_modified_without_content_change (T : Type) (g : BufferMut T) :
    (g.pulse).modified = true ∧ (g.pulse).storage = g.storage
    ∧ ∀ sess : Entity,
        (g.pulse).storage.count sess = g.storage.count sess
        ∧ (g.pulse).storage.getQueue sess = g.storage.getQueue sess :=
  ⟨rfl, rfl, fun _ => ⟨rfl, rfl⟩⟩

/-- C9: every mutating method on a `BufferMut` guard sets `modified` even
when it returns `None` and changes nothing: `pull()` and `pull_newest()` on
an empty session, and `get_mut(index)` with an out-of-range index, leave
the storage untouched and return `None`, yet the guard still enqueues a
buffer-updated notification on release. -/
theorem fruitless_mutating_calls_still_notify (T : Type) (st st2 : BufferStorage T)
    (buf sess acc : Entity) (i : Nat)
    (hempty : st.getQueue sess = [])
    (hi : st2.count sess ≤ i) :
    ((BufferMut.new st buf sess acc).pull).2 = none
    ∧ ((BufferMut.new st buf sess acc).pull).1.storage = st
    ∧ BufferMut.dropCommands ((BufferMut.new st buf sess acc).pull).1
        = [⟨buf, sess, some acc⟩]
    ∧ ((BufferMut.new st buf sess acc).pull_newest).2 = none
    ∧ ((BufferMut.new st buf sess acc).pull_newest).1.storage = st
    ∧ BufferMut.dropCommands ((BufferMut.new st buf sess acc).pull_newest).1
        = [⟨buf, sess, some acc⟩]
    ∧ ((BufferMut.new st2 buf sess acc).get_mut i).2 = none
    ∧ ((BufferMut.new st2 buf sess acc).get_mut i).1.storage = st2
    ∧ BufferMut.dropCommands ((BufferMut.new st2 buf sess acc).get_mut i).1
        = [⟨buf, sess, some acc⟩] := by
  have hget : st2.get_mut sess i = none := by
    rw [BufferStorage.get_mut, List.get?_eq_none]
    exact hi
  refine ⟨?_, ?_, ?_, ?_, ?_, ?_, ?_, ?_, ?_⟩ <;>
    simp [BufferMut.pull, BufferMut.pull_newest, BufferMut.get_mut, BufferMut.new,
      BufferStorage.pull, BufferStorage.pull_newest, BufferMut.dropCommands,
      hempty, hget]

/-- Storage with an empty queue in every session, for witnesses. -/
def stEmptyN : BufferStorage Nat := ⟨⟨.KeepAll⟩, fun _ => []⟩

/-- Storage holding one element in every session, for witnesses. -/
def stOneN : BufferStorage Nat := ⟨⟨.KeepAll⟩, fun _ => [10]⟩

theorem fruitless_mutating_calls_still_notify_witness :
    stEmptyN.getQueue 0 = [] ∧ stOneN.count 0 ≤ 1
    ∧ BufferMut.dropCommands ((BufferMut.new stEmptyN 7 0 3).pull).1
        = [⟨7, 0, some 3⟩]
    ∧ ((BufferMut.new stOneN 7 0 3).get_mut 1).2 = none
    ∧ BufferMut.dropCommands ((BufferMut.new stOneN 7 0 3).get_mut 1).1
        = [⟨7, 0, some 3⟩] :=
  ⟨rfl, by decide,
   (fruitless_mutating_calls_still_notify Nat stEmptyN stOneN 7 0 3 1 rfl
      (by decide)).2.2.1,
   (fruitless_mutating_calls_still_notify Nat stEmptyN stOneN 7 0 3 1 rfl
      (by decide)).2.2.2.2.2.2.1,
   (fruitless_mutating_calls_still_notify Nat stEmptyN stOneN 7 0 3 1 rfl
      (by decide)).2.2.2.2.2.2.2.2⟩

/-- C10: a `BufferKey` whose tag has no lifecycle handle reports
`is_in_use() == false` against every store, and `deep_clone()` of such a
key leaves the store untouched and produces the very same tag, in
particular one with no lifecycle handle. -/
theorem lifecycle_none_never_in_use (st : LifecycleStore) (t : BufferKeyTag)
    (h : t.lifecycle = none) :
    BufferKeyTag.is_in_use st t = false
    ∧ (deepCloneTag st t).1 = st
    ∧ (deepCloneTag st t).2 = t
    ∧ (deepCloneTag st t).2.lifecycle = none := by
  obtain ⟨b, s, a, l⟩ := t
  dsimp at h
  subst h
  exact ⟨rfl, rfl, rfl, rfl⟩

/-- Tag with no lifecycle handle, for witnesses. -/
def tagNone : BufferKeyTag := ⟨1, 2, 3, none⟩

/-- Store with no live handle, for witnesses. -/
def stL0 : LifecycleStore := ⟨fun _ => 0, 0⟩

theorem lifecycle_none_never_in_use_witness :
    BufferKeyTag.is_in_use stL0 tagNone = false
    ∧ (deepCloneTag stL0 tagNone).1 = stL0
    ∧ (deepCloneTag stL0 tagNone).2 = tagNone
    ∧ (deepCloneTag stL0 tagNone).2.lifecycle = none :=
  lifecycle_none_never_in_use stL0 tagNone rfl

/-- C7: a plain `clone()` of a key shares the original's lifecycle handle —
the clone is the same tag, `is_in_use` of clone and original agree against
every store, and after dropping the clone the original still counts as in
use — while `deep_clone()` keeps the buffer, session and accessor identity
but allocates a fresh handle not shared with the original, so the deep
clone stays in use independently of the original being dropped. -/
theorem key_clone_and_deep_clone_lifecycle (st : LifecycleStore) (t : BufferKeyTag)
    (id : Nat) (hl : t.lifecycle = some id) (hfresh : id < st.nextId)
    (hlive : 0 < st.countOf id) :
    (cloneTag st t).2 = t
    ∧ (∀ st' : LifecycleStore,
        BufferKeyTag.is_in_use st' (cloneTag st t).2 = BufferKeyTag.is_in_use st' t)
    ∧ BufferKeyTag.is_in_use (dropTag (cloneTag st t).1 (cloneTag st t).2) t = true
    ∧ (deepCloneTag st t).2.buffer = t.buffer
    ∧ (deepCloneTag st t).2.session = t.session
    ∧ (deepCloneTag st t).2.accessor = t.accessor
    ∧ (deepCloneTag st t).2.lifecycle = some st.nextId
    ∧ (deepCloneTag st t).2.lifecycle ≠ t.lifecycle
    ∧ BufferKeyTag.is_in_use (deepCloneTag st t).1 (deepCloneTag st t).2 = true
    ∧ BufferKeyTag.is_in_use (dropTag (deepCloneTag st t).1 t) (deepCloneTag st t).2
        = true := by
  have hne : st.nextId ≠ id := Nat.ne_of_gt hfresh
  refine ⟨?_, ?_, ?_, ?_, ?_, ?_, ?_, ?_, ?_, ?_⟩
  · simp [cloneTag, hl]
  · intro st'; simp [cloneTag, hl]
  · simp [cloneTag, hl, dropTag, BufferKeyTag.is_in_use, LifecycleStore.isInUse,
      LifecycleStore.countOf, LifecycleStore.decr, LifecycleStore.incr]
    exact hlive
  · simp [deepCloneTag, hl]
  · simp [deepCloneTag, hl]
  · simp [deepCloneTag, hl]
  · simp [deepCloneTag, hl, LifecycleStore.fresh]
  · simp [deepCloneTag, hl, LifecycleStore.fresh]
    intro heq
    exact hne heq
  · simp [deepCloneTag, hl, LifecycleStore.fresh, BufferKeyTag.is_in_use,
      LifecycleStore.isInUse, LifecycleStore.countOf]
  · simp [deepCloneTag, hl, LifecycleStore.fresh, dropTag, BufferKeyTag.is_in_use,
      LifecycleStore.isInUse, LifecycleStore.countOf, LifecycleStore.decr, hne]

/-- Tag bound to handle 0, for witnesses. -/
def tagL : BufferKeyTag := ⟨5, 6, 7, some 0⟩

/-- Store in which handle 0 is allocated with one reference, for
witnesses. -/
def stL1 : LifecycleStore := ⟨fun j => if j = 0 then 1 else 0, 1⟩

theorem key_clone_and_deep_clone_lifecycle_witness :
    tagL.lifecycle = some 0 ∧ 0 < stL1.nextId ∧ 0 < stL1.countOf 0
    ∧ BufferKeyTag.is_in_use (dropTag (cloneTag stL1 tagL).1 (cloneTag stL1 tagL).2)
        tagL = true
    ∧ (deepCloneTag stL1 tagL).2.lifecycle = some 1
    ∧ BufferKeyTag.is_in_use (dropTag (deepCloneTag stL1 tagL).1 tagL)
        (deepCloneTag stL1 tagL).2 = true :=
  ⟨rfl, by decide, by decide,
   (key_clone_and_deep_clone_lifecycle stL1 tagL 0 rfl (by decide) (by decide)).2.2.1,
   (key_clone_and_deep_clone_lifecycle stL1 tagL 0 rfl (by decide)
      (by decide)).2.2.2.2.2.2.1,
   (key_clone_and_deep_clone_lifecycle stL1 tagL 0 rfl (by decide)
      (by decide)).2.2.2.2.2.2.2.2.2⟩

/-- Apply a whole sequence of `push` calls for one session. -/
def pushAll (s : BufferStorage T) (session : Entity) (vs : List T) : BufferStorage T :=
  vs.foldl (fun acc v => (acc.push session v).1) s

theorem getQueue_setQueue_self (s : BufferStorage T) (session : Entity) (q : List T) :
    (s.setQueue session q).getQueue session = q := by
  simp [BufferStorage.setQueue, BufferStorage.getQueue]

theorem push_settings (s : BufferStorage T) (session : Entity) (v : T) :
    ((s.push session v).1).settings = s.settings := by
  unfold BufferStorage.push
  rcases s.settings.retention with n | n | _ <;> dsimp <;>
    first
      | rfl
      | (split <;> rfl)

theorem count_push_le (s : BufferStorage T) (session : Entity) (v : T) (n : Nat)
    (hret : s.settings.retention = .KeepLast n ∨ s.settings.retention = .KeepFirst n)
    (hc : s.count session ≤ n) :
    ((s.push session v).1).count session ≤ n := by
  have hc' : (s.getQueue session).length ≤ n := hc
  rcases hret with h | h
  · unfold BufferStorage.push
    rw [h]
    dsimp
    split
    · simp only [BufferStorage.count, getQueue_setQueue_self, List.length_tail,
        List.length_append, List.length_singleton]
      omega
    · rename_i hle
      simp only [BufferStorage.count, getQueue_setQueue_self]
      omega
  · unfold BufferStorage.push
    rw [h]
    dsimp
    split
    · rename_i hlt
      have hlt' : (s.getQueue session).length < n := hlt
      simp only [BufferStorage.count, getQueue_setQueue_self, List.length_append,
        List.length_singleton]
      omega
    · exact hc

theorem count_pushAll_le (vs : List T) (s : BufferStorage T) (session : Entity)
    (n : Nat)
    (hret : s.settings.retention = .KeepLast n ∨ s.settings.retention = .KeepFirst n)
    (hc : s.count session ≤ n) :
    (pushAll s session vs).count session ≤ n := by
  induction vs generalizing s with
  | nil => exact hc
  | cons v vs ih =>
      have hstep : pushAll s session (v :: vs)
          = pushAll ((s.push session v).1) session vs := rfl
      rw [hstep]
      refine ih _ ?_ (count_push_le s session v n hret hc)
      rw [push_settings]
      exact hret

/-- C3: behavior of `push` under each retention policy.  Under `KeepAll` it
always appends and returns `None`; under `KeepLast(n)` it appends and, if
the session's length then exceeds `n`, removes and returns the oldest
element, with `n = 0` on an empty session returning the pushed value
unstored; under `KeepFirst(n)` it appends and returns `None` below
capacity and at capacity leaves the storage unchanged and returns the
incoming value; and under `KeepLast(n)` or `KeepFirst(n)` any sequence of
pushes keeps `count(session) ≤ n`. -/
theorem push_retention_policy (T : Type) (s : BufferStorage T) (session : Entity)
    (v : T) (n : Nat) (vs : List T) :
    (s.settings.retention = .KeepAll →
        s.push session v = (s.setQueue session (s.getQueue session ++ [v]), none))
    ∧ (s.settings.retention = .KeepLast n →
        s.push session v =
          if n < (s.getQueue session ++ [v]).length then
            (s.setQueue session (s.getQueue session ++ [v]).tail,
             (s.getQueue session ++ [v]).head?)
          else (s.setQueue session (s.getQueue session ++ [v]), none))
    ∧ (s.settings.retention = .KeepLast 0 → s.getQueue session = [] →
        (s.push session v).2 = some v
        ∧ ((s.push session v).1).getQueue session = [])
    ∧ (s.settings.retention = .KeepFirst n →
        s.push session v =
          if s.count session < n then
            (s.setQueue session (s.getQueue session ++ [v]), none)
          else (s, some v))
    ∧ ((s.settings.retention = .KeepLast n ∨ s.settings.retention = .KeepFirst n) →
        s.count session ≤ n → (pushAll s session vs).count session ≤ n) := by
  refine ⟨?_, ?_, ?_, ?_, fun hret hc => count_pushAll_le vs s session n hret hc⟩
  · intro h; unfold BufferStorage.push; rw [h]
  · intro h; unfold BufferStorage.push; rw [h]
  · intro h he
    unfold BufferStorage.push
    rw [h, he]
    simp [getQueue_setQueue_self]
  · intro h; unfold BufferStorage.push; rw [h]

/-- Storage with policy `KeepAll` holding `[1, 2]`, for witnesses. -/
def stKA : BufferStorage Nat := ⟨⟨.KeepAll⟩, fun _ => [1, 2]⟩

/-- Empty storage with policy `KeepLast 2`, for witnesses. -/
def stKL2 : BufferStorage Nat := ⟨⟨.KeepLast 2⟩, fun _ => []⟩

/-- Storage with policy `KeepLast 1` holding `[5]`, for witnesses. -/
def stKL1 : BufferStorage Nat := ⟨⟨.KeepLast 1⟩, fun _ => [5]⟩

/-- Empty storage with policy `KeepLast 0`, for witnesses. -/
def stKL0 : BufferStorage Nat := ⟨⟨.KeepLast 0⟩, fun _ => []⟩

/-- Full storage with policy `KeepFirst 2` holding `[1, 2]`, for
witnesses. -/
def stKF2 : BufferStorage Nat := ⟨⟨.KeepFirst 2⟩, fun _ => [1, 2]⟩

theorem push_retention_policy_witness :
    stKA.push 0 3 = (stKA.setQueue 0 [1, 2, 3], none)
    ∧ stKL1.push 0 7 = (stKL1.setQueue 0 [7], some 5)
    ∧ ((stKL0.push 0 9).2 = some 9 ∧ ((stKL0.push 0 9).1).getQueue 0 = [])
    ∧ stKF2.push 0 3 = (stKF2, some 3)
    ∧ (pushAll stKL2 0 [1, 2, 3]).count 0 ≤ 2 :=
  ⟨(push_retention_policy Nat stKA 0 3 0 []).1 rfl,
   (push_retention_policy Nat stKL1 0 7 1 []).2.1 rfl,
   (push_retention_policy Nat stKL0 0 9 0 []).2.2.1 rfl rfl,
   (push_retention_policy Nat stKF2 0 3 2 []).2.2.2.1 rfl,
   (push_retention_policy Nat stKL2 0 0 2 [1, 2, 3]).2.2.2.2 (Or.inl rfl) (by decide)⟩

theorem buffer_view_via_query (w : World T) (key : BufferKey T) :
    World.buffer_view w key =
      (match storageQuery w key.tag.buffer with
       | .error _ => .error .bufferMissing
       | .ok st => .ok ⟨st, key.tag.session⟩) := by
  cases hw : w.entities key.tag.buffer with
  | none => simp [World.buffer_view, storageQuery, hw]
  | some ent =>
      cases hs : ent.storage with
      | none => simp [World.buffer_view, storageQuery, hw, hs]
      | some st => simp [World.buffer_view, storageQuery, hw, hs]

theorem gate_view_via_query (w : World T) (key : AnyBufferKey) :
    World.buffer_gate_view w key =
      (match gateQuery w key.tag.buffer with
       | .error _ => .error .bufferMissing
       | .ok gs => .ok ⟨gs, key.tag.session⟩) := by
  cases hw : w.entities key.tag.buffer with
  | none => simp [World.buffer_gate_view, gateQuery, hw]
  | some ent =>
      cases hs : ent.gate with
      | none => simp [World.buffer_gate_view, gateQuery, hw, hs]
      | some gs => simp [World.buffer_gate_view, gateQuery, hw, hs]

/-- World with no entities at all, over `Nat` payloads. -/
def wEmptyN : World Nat := ⟨fun _ => none, []⟩

/-- Key whose buffer entity does not exist in `wEmptyN`. -/
def keyE : BufferKey Nat := ⟨⟨0, 0, 0, none⟩⟩

/-- Counterexample to C4 as stated: at a world where the key's buffer
entity is gone, the query-scoped entry point `BufferAccess::get` surfaces
the substrate's `QueryEntityError` (here `NoSuchEntity`), not the uniform
`BufferMissing` error, while the world-level `buffer_view` does map the
same failure to `BufferMissing`. -/
theorem query_scoped_error_not_buffer_missing_cex :
    queryErrKind (BufferAccess.get wEmptyN keyE) = some ErrKind.noSuchEntity
    ∧ some ErrKind.noSuchEntity ≠ some ErrKind.bufferMissing
    ∧ bufferErrKind (World.buffer_view wEmptyN keyE) = some ErrKind.bufferMissing :=
  ⟨rfl, by decide, rfl⟩

/-- C4 (amended): the world-level entry points (`buffer_view`,
`buffer_mut`, `buffer_gate_view`, `buffer_gate_mut`) map substrate lookup
failures to the single `BufferMissing` error, failing exactly when the
corresponding query fails; the query-scoped entry points
(`BufferAccess::get`, `BufferAccessMut::get`, `BufferAccessMut::get_mut`)
fail under the same conditions but surface the substrate's
`QueryEntityError` unmapped, never `BufferMissing`. -/
theorem error_mapping_by_entry_point (T U : Type) (w : World T) (key : BufferKey T)
    (akey : AnyBufferKey) (f : BufferMut T → BufferMut T × U)
    (fg : BufferGateMut → U) :
    bufferErrKind (World.buffer_view w key)
        = (queryErrKind (BufferAccess.get w key)).map (fun _ => ErrKind.bufferMissing)
    ∧ bufferErrKind (World.buffer_mut w key f)
        = (queryErrKind (BufferAccessMut.get_mut w key)).map
            (fun _ => ErrKind.bufferMissing)
    ∧ bufferErrKind (World.buffer_gate_view w akey)
        = (queryErrKind (BufferGateAccessMut.get_mut w akey)).map
            (fun _ => ErrKind.bufferMissing)
    ∧ bufferErrKind (World.buffer_gate_mut w akey fg)
        = (queryErrKind (BufferGateAccessMut.get_mut w akey)).map
            (fun _ => ErrKind.bufferMissing)
    ∧ queryErrKind (BufferAccessMut.get w key) = queryErrKind (BufferAccess.get w key)
    ∧ queryErrKind (BufferAccessMut.get_mut w key)
        = queryErrKind (BufferAccess.get w key)
    ∧ (∀ k, queryErrKind (BufferAccess.get w key) = some k →
        k ≠ ErrKind.bufferMissing) := by
  refine ⟨?_, ?_, ?_, ?_, ?_, ?_, ?_⟩
  · rw [buffer_view_via_query]
    unfold BufferAccess.get
    cases storageQuery w key.tag.buffer with
    | error e => cases e <;> simp [bufferErrKind, queryErrKind, Except.map]
    | ok st => simp [bufferErrKind, queryErrKind, Except.map]
  · unfold World.buffer_mut BufferAccessMut.get_mut
    cases storageQuery w key.tag.buffer with
    | error e => cases e <;> simp [bufferErrKind, queryErrKind, Except.map]
    | ok st => simp [bufferErrKind, queryErrKind, Except.map]
  · rw [gate_view_via_query]
    unfold BufferGateAccessMut.get_mut
    cases gateQuery w akey.tag.buffer with
    | error e => cases e <;> simp [bufferErrKind, queryErrKind, Except.map]
    | ok gs => simp [bufferErrKind, queryErrKind, Except.map]
  · unfold World.buffer_gate_mut BufferGateAccessMut.get_mut
    cases gateQuery w akey.tag.buffer with
    | error e => cases e <;> simp [bufferErrKind, queryErrKind, Except.map]
    | ok gs => simp [bufferErrKind, queryErrKind, Except.map]
  · rfl
  · unfold BufferAccessMut.get_mut BufferAccess.get
    cases storageQuery w key.tag.buffer with
    | error e => cases e <;> simp [queryErrKind, Except.map]
    | ok st => simp [queryErrKind, Except.map]
  · intro k hk
    unfold BufferAccess.get at hk
    cases hs : storageQuery w key.tag.buffer with
    | error e =>
        rw [hs] at hk
        cases e <;> simp only [Except.map, queryErrKind, Option.some.injEq] at hk <;>
          subst hk <;> decide
    | ok st =>
        rw [hs] at hk
        simp [queryErrKind, Except.map] at hk

/-- Type-erased key whose buffer entity does not exist in `wEmptyN`. -/
def akeyE : AnyBufferKey := ⟨⟨0, 0, 0, none⟩⟩

/-- Identity callback over a guard, for witnesses. -/
def fU : BufferMut Nat → BufferMut Nat × Unit := fun g => (g, ())

/-- Trivial callback over a gate guard, for witnesses. -/
def fgU : BufferGateMut → Unit := fun _ => ()

theorem error_mapping_by_entry_point_witness :
    queryErrKind (BufferAccess.get wEmptyN keyE) = some ErrKind.noSuchEntity
    ∧ ErrKind.noSuchEntity ≠ ErrKind.bufferMissing :=
  ⟨rfl,
   (error_mapping_by_entry_point Nat Unit wEmptyN keyE akeyE fU fgU).2.2.2.2.2.2
     ErrKind.noSuchEntity rfl⟩

theorem storageQuery_error_iff (w : World T) (b : Entity) :
    (∃ e, storageQuery w b = .error e)
      ↔ (w.entities b = none ∨ ∃ ent, w.entities b = some ent ∧ ent.storage = none) := by
  unfold storageQuery
  cases hw : w.entities b with
  | none => simp
  | some ent => cases hs : ent.storage with
    | none => simp [hs]
    | some st => simp [hs]

/-- C5: the world-level fallback `buffer_mut` resolves the key exactly as
the query-scoped `BufferAccessMut::get_mut` does (the buffer entity gone or
its storage component absent are the only failures, reported as
`BufferMissing`); on success it invokes the callback with the guard built
from the key's buffer, session and accessor, returns `Ok` of the callback's
result, writes the guard's storage through, and appends to the deferred
queue exactly the notification the guard's release produced. -/
theorem buffer_mut_world_fallback (T U : Type) (w : World T) (key : BufferKey T)
    (f : BufferMut T → BufferMut T × U) :
    ((∃ e, World.buffer_mut w key f = .error e)
        ↔ ∃ e, BufferAccessMut.get_mut w key = .error e)
    ∧ (∀ e, World.buffer_mut w key f = .error e → e = .bufferMissing)
    ∧ ((∃ e, World.buffer_mut w key f = .error e)
        ↔ (w.entities key.tag.buffer = none
            ∨ ∃ ent, w.entities key.tag.buffer = some ent ∧ ent.storage = none))
    ∧ (∀ g, BufferAccessMut.get_mut w key = .ok g →
        g.buffer = key.tag.buffer ∧ g.session = key.tag.session
        ∧ g.accessor = some key.tag.accessor ∧ g.modified = false
        ∧ World.buffer_mut w key f =
            .ok ({ w.setStorage key.tag.buffer (f g).1.storage with
                    pending := w.pending ++ BufferMut.dropCommands (f g).1 },
                 (f g).2)) := by
  have hq := storageQuery_error_iff w key.tag.buffer
  cases hs : storageQuery w key.tag.buffer with
  | error e =>
      have hget : BufferAccessMut.get_mut w key = .error e := by
        unfold BufferAccessMut.get_mut; rw [hs]; rfl
      have hbm : World.buffer_mut w key f = .error .bufferMissing := by
        unfold World.buffer_mut; rw [hget]
      refine ⟨?_, ?_, ?_, ?_⟩
      · exact ⟨fun _ => ⟨e, hget⟩, fun _ => ⟨.bufferMissing, hbm⟩⟩
      · intro e' _
        cases e'
        rfl
      · exact ⟨fun _ => hq.mp ⟨e, hs⟩, fun _ => ⟨.bufferMissing, hbm⟩⟩
      · intro g hg
        rw [hget] at hg
        simp at hg
  | ok st =>
      have hget : BufferAccessMut.get_mut w key
          = .ok (BufferMut.new st key.tag.buffer key.tag.session key.tag.accessor) := by
        unfold BufferAccessMut.get_mut; rw [hs]; rfl
      have hbm : World.buffer_mut w key f =
          .ok ({ w.setStorage key.tag.buffer
                   (f (BufferMut.new st key.tag.buffer key.tag.session
                        key.tag.accessor)).1.storage with
                  pending := w.pending ++ BufferMut.dropCommands
                    (f (BufferMut.new st key.tag.buffer key.tag.session
                         key.tag.accessor)).1 },
               (f (BufferMut.new st key.tag.buffer key.tag.session
                    key.tag.accessor)).2) := by
        unfold World.buffer_mut; rw [hget]
      refine ⟨?_, ?_, ?_, ?_⟩
      · constructor
        · rintro ⟨e', he'⟩; rw [hbm] at he'; simp at he'
        · rintro ⟨e', he'⟩; rw [hget] at he'; simp at he'
      · intro e' _
        cases e'
        rfl
      · constructor
        · rintro ⟨e', he'⟩; rw [hbm] at he'; simp at he'
        · intro hrhs
          rcases hq.mpr hrhs with ⟨e', he'⟩
          rw [hs] at he'
          simp at he'
      · intro g hg
        rw [hget] at hg
        have hgeq := Except.ok.inj hg
        subst hgeq
        exact ⟨rfl, rfl, rfl, rfl, hbm⟩

/-- Empty `KeepAll` storage over `Nat`, for witnesses. -/
def stW : BufferStorage Nat := ⟨⟨.KeepAll⟩, fun _ => []⟩

/-- Entity 7 holding `stW` and no gate, for witnesses. -/
def entW : WorldEntity Nat := ⟨some stW, none⟩

/-- World with the single buffer entity 7, for witnesses. -/
def wW : World Nat := ⟨fun e => if e = 7 then some entW else none, []⟩

/-- Key for buffer 7, session 0, accessor 3, for witnesses. -/
def keyW : BufferKey Nat := ⟨⟨7, 0, 3, none⟩⟩

/-- Callback pushing one value, for witnesses. -/
def fW : BufferMut Nat → BufferMut Nat × Unit := fun g => ((g.push 42).1, ())

/-- The guard `buffer_mut` constructs at `wW`/`keyW`, for witnesses. -/
def gW : BufferMut Nat := BufferMut.new stW 7 0 3

theorem buffer_mut_world_fallback_witness :
    BufferAccessMut.get_mut wW keyW = .ok gW
    ∧ World.buffer_mut wW keyW fW =
        .ok ({ wW.setStorage 7 (fW gW).1.storage with
                pending := wW.pending ++ BufferMut.dropCommands (fW gW).1 },
             (fW gW).2)
    ∧ wW.pending ++ BufferMut.dropCommands (fW gW).1 = [⟨7, 0, some 3⟩] :=
  ⟨rfl,
   ((buffer_mut_world_fallback Nat Unit wW keyW fW).2.2.2 gW rfl).2.2.2.2,
   rfl⟩

/-- C8: `get_newest(key)` on `BufferAccess` and on `BufferAccessMut` never
surfaces an error: it is `None` whenever the key fails to resolve to live
storage or the session's buffer is empty, and otherwise it is `Some` of the
newest element of that session. -/
theorem get_newest_silently_absorbs_failures (T : Type) (w : World T)
    (key : BufferKey T) :
    BufferAccess.get_newest w key
        = (match storageQuery w key.tag.buffer with
           | .error _ => none
           | .ok st => (st.getQueue key.tag.session).getLast?)
    ∧ BufferAccessMut.get_newest w key = BufferAccess.get_newest w key
    ∧ (∀ e, BufferAccess.get w key = .error e → BufferAccess.get_newest w key = none)
    ∧ (∀ view, BufferAccess.get w key = .ok view → view.len = 0 →
        BufferAccess.get_newest w key = none)
    ∧ (∀ view, BufferAccess.get w key = .ok view → 0 < view.len →
        BufferAccess.get_newest w key = view.newest ∧ view.newest.isSome = true) := by
  cases hs : storageQuery w key.tag.buffer with
  | error e =>
      have hget : BufferAccess.get w key = .error e := by
        unfold BufferAccess.get; rw [hs]; rfl
      have hnone : BufferAccess.get_newest w key = none := by
        unfold BufferAccess.get_newest; rw [hget]; rfl
      refine ⟨by rw [hnone], rfl, fun _ _ => hnone, ?_, ?_⟩
      · intro view hview _
        rw [hget] at hview
        simp at hview
      · intro view hview _
        rw [hget] at hview
        simp at hview
  | ok st =>
      have hget : BufferAccess.get w key = .ok ⟨st, key.tag.session⟩ := by
        unfold BufferAccess.get; rw [hs]; rfl
      have hval : BufferAccess.get_newest w key
          = (st.getQueue key.tag.session).getLast? := by
        unfold BufferAccess.get_newest; rw [hget]; rfl
      refine ⟨by rw [hval], rfl, ?_, ?_, ?_⟩
      · intro e he
        rw [hget] at he
        simp at he
      · intro view hview h0
        rw [hget] at hview
        have hv := Except.ok.inj hview
        subst hv
        have h0' : (st.getQueue key.tag.session).length = 0 := h0
        have hnil : st.getQueue key.tag.session = [] := List.length_eq_zero.mp h0'
        rw [hval, hnil]
        rfl
      · intro view hview hpos
        rw [hget] at hview
        have hv := Except.ok.inj hview
        subst hv
        have hpos' : 0 < (st.getQueue key.tag.session).length := hpos
        have hne : st.getQueue key.tag.session ≠ [] := by
          intro hnil
          rw [hnil] at hpos'
          exact Nat.lt_irrefl 0 hpos'
        refine ⟨hval, ?_⟩
        show (st.getQueue key.tag.session).getLast?.isSome = true
        exact List.getLast?_isSome.mpr hne

/-- World with the single buffer entity 7 holding one value, for
witnesses. -/
def wOne : World Nat := ⟨fun e => if e = 7 then some ⟨some stOneN, none⟩ else none, []⟩

theorem get_newest_silently_absorbs_failures_witness :
    BufferAccess.get_newest wEmptyN keyE = none
    ∧ BufferAccess.get_newest wW keyW = none
    ∧ BufferAccess.get_newest wOne keyW = some 10 :=
  ⟨(get_newest_silently_absorbs_failures Nat wEmptyN keyE).2.2.1 .noSuchEntity rfl,
   (get_newest_silently_absorbs_failures Nat wW keyW).2.2.2.1 ⟨stW, 0⟩ rfl rfl,
   ((get_newest_silently_absorbs_failures Nat wOne keyW).2.2.2.2 ⟨stOneN, 0⟩ rfl
      (by decide)).1⟩
